import Mathlib

/-!
Verification development for the MagicLens image-editing studio.

The definitions below are a shallow embedding of the repository's
TypeScript sources:

* `src/app/components/QuickActionsPanel.tsx` — the canvas editor
  (mask painting history, undo/redo, mask export, crop interaction)
  and the quick-action button panel;
* `src/app/api/generate/route.ts` — the `POST /api/generate` handler;
* `src/app/lib/bria.ts` — the Bria API client functions.

JavaScript conventions are modelled explicitly: optional values are
`Option`, string/number falsiness is spelled out (`""` and `0` are
falsy), `a || b` becomes a falsiness-aware default, and the single
`await fetch` of each client function becomes one `fetch` node holding
the request and the continuation applied to the HTTP response.
JSON payloads are modelled structurally (field values, not serialized
text); `Math.random()` draws are passed in as an explicit parameter.
-/

namespace MagicLens

/-! ## JavaScript helpers -/

/-- Truthiness of an optional string: `undefined` and `""` are falsy. -/
def strTruthy : Option String → Bool
  | none => false
  | some s => s ≠ ""

/-- JS `a || b` for an optional string `a` (falsy when absent or empty). -/
def jsOrS (a : Option String) (b : String) : String :=
  match a with
  | none => b
  | some s => if s = "" then b else s

/-- JS `a || b` for an optional number `a` (falsy when absent or zero). -/
def jsOrI (a : Option Int) (b : Int) : Int :=
  match a with
  | none => b
  | some v => if v = 0 then b else v

/-- JS `a || b` on two strings (first one wins unless empty). -/
def jsOrStr (a b : String) : String :=
  if a = "" then b else a

/-- JS `s.includes(pat)` for a nonempty pattern, via `splitOn`. -/
def jsIncludes (s pat : String) : Bool :=
  (s.splitOn pat).length ≠ 1

/-- JS `s.replace(pat, rep)` with a plain-string pattern replaces only
the first occurrence. -/
def jsReplaceFirst (s pat rep : String) : String :=
  match s.splitOn pat with
  | [] => s
  | [x] => x
  | x :: rest => x ++ rep ++ String.intercalate pat rest

/-! ## Canvas pixel data

`ImageData` models the browser's `ImageData`: an RGBA pixel grid. -/

/-- One RGBA pixel of a canvas `ImageData` buffer. -/
structure Pixel where
  r : Nat
  g : Nat
  b : Nat
  a : Nat
deriving DecidableEq, Repr

/-- A canvas `ImageData` snapshot. -/
structure ImageData where
  width : Nat
  height : Nat
  pixels : List Pixel
deriving DecidableEq, Repr

/-- A fully transparent black pixel, the result of `clearRect`. -/
def clearedPixel : Pixel := ⟨0, 0, 0, 0⟩

/-- Pure white opaque pixel. -/
def whitePixel : Pixel := ⟨255, 255, 255, 255⟩

/-- Pure black opaque pixel (the `fillStyle = 'black'` background). -/
def blackPixel : Pixel := ⟨0, 0, 0, 255⟩

/-- `ctx.clearRect(0, 0, w, h)` over the whole canvas: every pixel
becomes transparent black. -/
def clearImage (img : ImageData) : ImageData :=
  { img with pixels := img.pixels.map (fun _ => clearedPixel) }

/-! ## Mask editor state: history, undo, redo (QuickActionsPanel.tsx)

The component state relevant to the undo stack: the `history` array of
`ImageData` snapshots, the `historyIndex` (initially `-1`, hence `Int`),
the current mask-canvas contents and the `hasMask` flag. -/

structure MaskEditorState where
  history : List ImageData
  historyIndex : Int
  canvas : ImageData
  hasMask : Bool
deriving DecidableEq, Repr

/-- `saveToHistory` (QuickActionsPanel.tsx lines 277–295): snapshot the
mask canvas, drop any redo states (`history.slice(0, historyIndex + 1)`),
push the snapshot, shift off the oldest state when the length would
exceed 50, and point `historyIndex` at the last element.  The component
maintains `historyIndex ≥ -1`, under which `slice(0, historyIndex + 1)`
is `take (historyIndex + 1)`.  `pushedHistory` is the truncate-and-push
step, `boundedHistory` the 50-state bound, `saveToHistory` the full
state update. -/
def pushedHistory (s : MaskEditorState) : List ImageData :=
  s.history.take (s.historyIndex + 1).toNat ++ [s.canvas]

/-- The `if (newHistory.length > 50) newHistory.shift()` bound. -/
def boundedHistory (s : MaskEditorState) : List ImageData :=
  if 50 < (pushedHistory s).length then (pushedHistory s).drop 1 else pushedHistory s

def saveToHistory (s : MaskEditorState) : MaskEditorState :=
  { s with history := boundedHistory s,
           historyIndex := ((boundedHistory s).length : Int) - 1 }

/-- `undo` (QuickActionsPanel.tsx lines 466–485): no-op when
`historyIndex <= 0`; otherwise step the index back and repaint the mask
canvas with `history[newIndex]` (the `newIndex < 0` clear branch is kept
from the source).  The in-bounds array read `history[newIndex]` is
modelled with a `getD` whose default is unreachable in component
states. -/
def undo (s : MaskEditorState) : MaskEditorState :=
  if s.historyIndex ≤ 0 then s
  else
    let newIndex := s.historyIndex - 1
    if newIndex < 0 then
      { s with canvas := clearImage s.canvas, hasMask := false, historyIndex := newIndex }
    else
      { s with canvas := (s.history.get? newIndex.toNat).getD s.canvas,
               hasMask := true, historyIndex := newIndex }

/-- `redo` (QuickActionsPanel.tsx lines 488–500): no-op when
`historyIndex >= history.length - 1`; otherwise step the index forward
and repaint with `history[newIndex]`. -/
def redo (s : MaskEditorState) : MaskEditorState :=
  if (s.history.length : Int) - 1 ≤ s.historyIndex then s
  else
    let newIndex := s.historyIndex + 1
    { s with canvas := (s.history.get? newIndex.toNat).getD s.canvas,
             hasMask := true, historyIndex := newIndex }

/-! ## Mask export (QuickActionsPanel.tsx lines 298–334) -/

/-- Per-pixel binarization of `exportMask`: the export canvas is filled
black, and every source pixel with alpha above 10 is overwritten with
pure white. -/
def binarizePixel (p : Pixel) : Pixel :=
  if 10 < p.a then whitePixel else blackPixel

/-- `exportMask`: when no mask has been drawn `onMaskChange` receives
`null` (modelled as `none`); otherwise the painted mask canvas is
converted to a binary black/white image of the same dimensions. -/
def exportMask (hasMask : Bool) (mask : ImageData) : Option ImageData :=
  if hasMask then
    some { width := mask.width, height := mask.height,
           pixels := mask.pixels.map binarizePixel }
  else none

/-! ## Quick Actions panel (QuickActionsPanel.tsx lines 17–75) -/

/-- One entry of the `QUICK_ACTIONS` array (icon component modelled by
its name). -/
structure QuickActionDef where
  id : String
  label : String
  description : String
  icon : String
  color : String
deriving DecidableEq, Repr

/-- The `QuickAction` union type: the seven operation identifiers. -/
def quickActionTypeValues : List String :=
  ["background_remove", "background_blur", "background_replace",
   "image_expand", "image_upscale", "erase_element", "hdr_enhance"]

/-- The `QUICK_ACTIONS` array backing the rendered buttons. -/
def QUICK_ACTIONS : List QuickActionDef :=
  [ { id := "background_remove", label := "Remove BG",
      description := "Remove background (transparent)",
      icon := "ImageOff", color := "from-red-500 to-pink-500" },
    { id := "background_blur", label := "Blur BG",
      description := "Add depth-of-field blur",
      icon := "Focus", color := "from-blue-500 to-cyan-500" },
    { id := "background_replace", label := "Replace BG",
      description := "Generate new background",
      icon := "Layers", color := "from-purple-500 to-indigo-500" },
    { id := "image_expand", label := "Expand",
      description := "Extend image boundaries",
      icon := "Maximize2", color := "from-emerald-500 to-teal-500" },
    { id := "image_upscale", label := "Upscale 2x",
      description := "Increase resolution",
      icon := "ZoomIn", color := "from-orange-500 to-amber-500" },
    { id := "erase_element", label := "Erase",
      description := "Remove & fill marked area",
      icon := "Eraser", color := "from-rose-500 to-red-500" } ]

/-- Each rendered button's click handler is `() => onAction(action.id)`:
the dispatched identifiers are exactly the ids of `QUICK_ACTIONS`. -/
def quickActionsDispatchIds : List String :=
  QUICK_ACTIONS.map QuickActionDef.id

/-! ## Crop interaction (QuickActionsPanel.tsx lines 602–613, 753–810)

Coordinates are modelled over `ℚ` (canvas coordinates are JS doubles;
the screen-to-image scaling that produces `deltaX`/`deltaY` is DOM
layout glue, so the deltas are taken as inputs). -/

/-- The `cropArea` / `cropStartArea` state. -/
structure CropArea where
  x : ℚ
  y : ℚ
  width : ℚ
  height : ℚ
deriving DecidableEq, Repr

/-- The `imageDimensions` state. -/
structure Dims where
  width : ℚ
  height : ℚ
deriving DecidableEq, Repr

/-- `initializeCrop`: initial crop is 80% of the image, centered
(margin 0.1 on each side). -/
def initializeCrop (dims : Dims) : CropArea :=
  { x := dims.width * (1/10),
    y := dims.height * (1/10),
    width := dims.width * (1 - (1/10) * 2),
    height := dims.height * (1 - (1/10) * 2) }

/-- The `isDraggingCrop` branch of `handleCropMouseMove`: move the whole
crop area, clamped to the image bounds. -/
def cropDragMove (start : CropArea) (dims : Dims) (dx dy : ℚ) : CropArea :=
  { start with
    x := max 0 (min (start.x + dx) (dims.width - start.width)),
    y := max 0 (min (start.y + dy) (dims.height - start.height)) }

/-- The `cropResizeHandle` branch of `handleCropMouseMove`: four
sequential updates keyed on the handle name containing each of
`e`/`w`/`s`/`n`, with a 50-pixel minimum size. -/
def cropResizeMove (handle : String) (start : CropArea) (dims : Dims)
    (dx dy : ℚ) : CropArea :=
  let minSize : ℚ := 50
  let a0 := start
  let a1 :=
    if handle.contains 'e' then
      { a0 with width := min (max minSize (start.width + dx)) (dims.width - start.x) }
    else a0
  let a2 :=
    if handle.contains 'w' then
      let maxDeltaX := start.width - minSize
      let clampedDeltaX := max (-start.x) (min dx maxDeltaX)
      { a1 with x := start.x + clampedDeltaX, width := start.width - clampedDeltaX }
    else a1
  let a3 :=
    if handle.contains 's' then
      { a2 with height := min (max minSize (start.height + dy)) (dims.height - start.y) }
    else a2
  let a4 :=
    if handle.contains 'n' then
      let maxDeltaY := start.height - minSize
      let clampedDeltaY := max (-start.y) (min dy maxDeltaY)
      { a3 with y := start.y + clampedDeltaY, height := start.height - clampedDeltaY }
    else a3
  a4

/-- `handleCropMouseMove` (lines 753–810): early return unless cropping
with an active drag or resize, then either move or resize starting from
`cropStartArea`. -/
def handleCropMouseMove (isCropping isDraggingCrop : Bool)
    (cropResizeHandle : Option String) (cropStartArea : CropArea)
    (dims : Dims) (dx dy : ℚ) (cropArea : CropArea) : CropArea :=
  if isCropping = false ∨ (isDraggingCrop = false ∧ strTruthy cropResizeHandle = false) then
    cropArea
  else if isDraggingCrop then
    cropDragMove cropStartArea dims dx dy
  else if strTruthy cropResizeHandle then
    cropResizeMove (cropResizeHandle.getD "") cropStartArea dims dx dy
  else cropArea

/-- The crop rectangle lies inside the image bounds. -/
def inBounds (a : CropArea) (dims : Dims) : Prop :=
  0 ≤ a.x ∧ 0 ≤ a.y ∧ 0 ≤ a.width ∧ 0 ≤ a.height ∧
    a.x + a.width ≤ dims.width ∧ a.y + a.height ≤ dims.height

instance (a : CropArea) (dims : Dims) : Decidable (inBounds a dims) := by
  unfold inBounds; infer_instance

/-! ## FIBO parameter and response types (lib/types.ts usage) -/

/-- The `camera` sub-object of `FIBOParams`. -/
structure Camera where
  yaw : Int
  pitch : Int
  roll : Int
  fov : Int
deriving DecidableEq, Repr

/-- The FIBO parameter object, with the fields the route and the Bria
client read.  Numbers are modelled as `Int`. -/
structure FIBOParams where
  blur_intensity : Option Int := none
  new_background : Option String := none
  expand_direction : Option String := none
  expand_amount : Option Int := none
  upscale_factor : Option Int := none
  hdr_resolution : Option String := none
  subject_description : Option String := none
  lighting : String := ""
  composition : String := ""
  color_palette : Option String := none
  realism_level : Option String := none
  output_format : Option String := none
  camera : Camera := ⟨0, 0, 0, 50⟩
deriving DecidableEq, Repr

/-- The `lighting` sub-object of `BriaStructuredPrompt`. -/
structure SPLighting where
  type : String
  direction : String
  shadows : String
deriving DecidableEq, Repr

/-- The `aesthetics` sub-object of `BriaStructuredPrompt`. -/
structure SPAesthetics where
  composition : String
  color_scheme : String
  mood_atmosphere : String
deriving DecidableEq, Repr

/-- The `photographic_characteristics` sub-object. -/
structure SPPhotographic where
  depth_of_field : String
  focus : String
  camera_angle : String
  lens_focal_length : String
deriving DecidableEq, Repr

/-- Bria's structured prompt format (`BriaStructuredPrompt`). -/
structure BriaStructuredPrompt where
  short_description : String
  lighting : SPLighting
  aesthetics : SPAesthetics
  photographic_characteristics : SPPhotographic
  style_medium : String
deriving DecidableEq, Repr

/-- The `GenerateResponse` returned by the client functions.  The
`structuredPrompt` JSON string is modelled structurally. -/
structure GenerateResponse where
  imageUrl : String
  seed : Option Int := none
  structuredPrompt : Option BriaStructuredPrompt := none
deriving DecidableEq, Repr

/-! ## Prompt builders (bria.ts lines 381–455, 631–683;
route.ts lines 175–242) -/

/-- `describeCameraAngle` (bria.ts lines 414–428). -/
def describeCameraAngle (camera : Camera) : String :=
  let parts : List String :=
    (if 10 < camera.pitch.natAbs then
       [if 0 < camera.pitch then "high angle" else "low angle"] else []) ++
    (if 10 < camera.yaw.natAbs then
       [if 0 < camera.yaw then "from the right" else "from the left"] else []) ++
    (if 5 < camera.roll.natAbs then ["dutch angle"] else [])
  if 0 < parts.length then String.intercalate ", " parts else "straight on"

/-- `fovToFocalLength` (bria.ts lines 433–439). -/
def fovToFocalLength (fov : Int) : String :=
  if fov < 20 then "135mm telephoto"
  else if fov < 35 then "85mm portrait"
  else if fov < 50 then "50mm standard"
  else if fov < 70 then "35mm wide"
  else "24mm ultra-wide"

/-- The lighting preset table shared by `mapLightingType` (bria.ts
lines 445–453) and `buildRichPrompt` (lines 645–653). -/
def richLightingMap (lighting : String) : Option String :=
  if lighting = "studio_soft" then some "soft studio lighting with diffused shadows"
  else if lighting = "natural_daylight" then some "natural daylight, golden hour warmth"
  else if lighting = "dramatic_side" then some "dramatic side lighting with strong contrast"
  else if lighting = "backlit" then some "backlit with rim lighting"
  else if lighting = "overcast" then some "soft overcast ambient lighting"
  else if lighting = "neon" then some "colorful neon lighting"
  else if lighting = "candlelight" then some "warm candlelight ambiance"
  else none

/-- `mapLightingType` (bria.ts lines 444–455): table lookup, falling
back to `lighting.replace('_', ' ')`. -/
def mapLightingType (lighting : String) : String :=
  match richLightingMap lighting with
  | some v => v
  | none => jsReplaceFirst lighting "_" " "

/-- `paramsToStructuredPrompt` (bria.ts lines 381–409). -/
def paramsToStructuredPrompt (params : FIBOParams)
    (subjectDescription : Option String := none) : BriaStructuredPrompt :=
  { short_description := jsOrS subjectDescription "A professionally composed image",
    lighting :=
      { type := mapLightingType params.lighting,
        direction := "front",
        shadows := if jsIncludes params.lighting "dramatic" then "strong" else "soft" },
    aesthetics :=
      { composition := jsReplaceFirst params.composition "_" " ",
        color_scheme := jsOrS params.color_palette "natural",
        mood_atmosphere :=
          if params.realism_level = some "stylized" then "artistic" else "realistic" },
    photographic_characteristics :=
      { depth_of_field := if params.camera.fov < 30 then "shallow" else "medium",
        focus := "sharp on subject",
        camera_angle := describeCameraAngle params.camera,
        lens_focal_length := fovToFocalLength params.camera.fov },
    style_medium :=
      if params.realism_level = some "high" then "photograph" else "digital art" }

/-- The composition table of `buildRichPrompt` (bria.ts lines 659–665). -/
def richCompositionMap (composition : String) : Option String :=
  if composition = "rule_of_thirds" then some "composed using rule of thirds"
  else if composition = "centered" then some "centered composition"
  else if composition = "golden_ratio" then some "golden ratio composition"
  else if composition = "symmetrical" then some "symmetrical composition"
  else if composition = "leading_lines" then some "leading lines composition"
  else none

/-- `buildRichPrompt` (bria.ts lines 631–683). -/
def buildRichPrompt (params : FIBOParams) (userPrompt : Option String) : String :=
  let parts : List String :=
    (match userPrompt with
     | some p => if p = "" then [] else [p]
     | none => []) ++
    (match params.subject_description with
     | some d => if d = "" then [] else [d]
     | none => []) ++
    (if params.lighting ≠ "" then
       match richLightingMap params.lighting with
       | some v => [v]
       | none => []
     else []) ++
    (if params.composition ≠ "" then
       match richCompositionMap params.composition with
       | some v => [v]
       | none => []
     else []) ++
    (match params.color_palette with
     | some c => if c = "" then [] else [c ++ " color palette"]
     | none => []) ++
    (if params.realism_level = some "high" then ["photorealistic, highly detailed"]
     else if params.realism_level = some "stylized" then ["artistic, stylized"]
     else [])
  jsOrStr (String.intercalate ". " parts) "A high quality image"

/-- The lighting table of `buildPromptFromParams` (route.ts lines 184–192). -/
def routeLightingMap (lighting : String) : Option String :=
  if lighting = "studio_soft" then some "soft studio lighting"
  else if lighting = "natural_daylight" then some "natural daylight"
  else if lighting = "dramatic_side" then some "dramatic side lighting"
  else if lighting = "backlit" then some "backlit with rim lighting"
  else if lighting = "overcast" then some "soft overcast lighting"
  else if lighting = "neon" then some "colorful neon lighting"
  else if lighting = "candlelight" then some "warm candlelight"
  else none

/-- The composition table of `buildPromptFromParams` (route.ts lines 218–224). -/
def routeCompositionMap (composition : String) : Option String :=
  if composition = "centered" then some "centered composition"
  else if composition = "rule_of_thirds" then some "rule of thirds composition"
  else if composition = "golden_ratio" then some "golden ratio composition"
  else if composition = "symmetrical" then some "symmetrical composition"
  else if composition = "dynamic" then some "dynamic composition"
  else none

/-- `buildPromptFromParams` (route.ts lines 175–242). -/
def buildPromptFromParams (params : FIBOParams) : String :=
  let parts : List String :=
    (match params.subject_description with
     | some d => if d = "" then [] else [d]
     | none => []) ++
    (if params.lighting ≠ "" then
       match routeLightingMap params.lighting with
       | some v => [v]
       | none => []
     else []) ++
    (match params.color_palette with
     | some c => if c = "" then [] else [c ++ " color palette"]
     | none => []) ++
    ((if 15 < params.camera.yaw.natAbs then
        ["camera rotated " ++ (if 0 < params.camera.yaw then "right" else "left")]
      else []) ++
     (if 15 < params.camera.pitch.natAbs then
        [(if 0 < params.camera.pitch then "high" else "low") ++ " angle shot"]
      else []) ++
     (if params.camera.fov < 30 then ["telephoto lens, shallow depth of field"]
      else if 60 < params.camera.fov then ["wide angle lens"]
      else [])) ++
    (if params.composition ≠ "" then
       match routeCompositionMap params.composition with
       | some v => [v]
       | none => []
     else []) ++
    (if params.realism_level = some "high" then ["photorealistic, highly detailed"]
     else if params.realism_level = some "stylized" then ["stylized, artistic"]
     else []) ++
    (if params.output_format = some "hdr_16bit" then ["HDR, high dynamic range"]
     else [])
  jsOrStr (String.intercalate ", " parts) "A professional photograph"

/-! ## HTTP model for the Bria client (bria.ts)

Each client function performs at most one `await fetch`; a call is
therefore either a finished result (`done`) or a single request paired
with the continuation applied to the HTTP response (`fetch`). -/

/-- `BRIA_API_BASE` (bria.ts line 6). -/
def BRIA_API_BASE : String := "https://engine.prod.bria-api.com/v2"

/-- `BRIA_EDIT_BASE` (bria.ts line 7). -/
def BRIA_EDIT_BASE : String := "https://engine.prod.bria-api.com/v2/image/edit"

/-- `stripDataUrl` (bria.ts lines 12–14): take the part after the first
comma when one is present (`dataUrl.split(',')[1]`), else the input.
`generateWithGenFill` and `generateStandard` inline the same logic. -/
def stripDataUrl (dataUrl : String) : String :=
  match dataUrl.splitOn "," with
  | _ :: second :: _ => second
  | _ => dataUrl

/-- A thrown JS value: an `Error` carrying a message, or anything else. -/
inductive JsError where
  | error (msg : String)
  | nonError
deriving DecidableEq, Repr

/-- `error instanceof Error ? error.message : 'Failed to generate image'`
(route.ts line 156). -/
def jsErrorMessage : JsError → String
  | .error m => m
  | .nonError => "Failed to generate image"

/-- An HTTP response from the Bria API, as the client code reads it:
`ok`/`status`, the error body text, the JSON-parsed error message
(`errorData.error?.message || errorData.message` when the error text
parses and one of them is truthy), and the success-payload fields
(absent string fields modelled as `""`, i.e. falsy). -/
structure HttpResponse where
  ok : Bool
  status : Nat
  text : String := ""
  parsedErrMessage : Option String := none
  resultImageUrl : String := ""
  resultUrl : String := ""
  resultSeed : Option Int := none
  resultStructuredPrompt : Option BriaStructuredPrompt := none

/-- The JSON request bodies the client functions send, one constructor
per body shape (constant fields such as `sync: true`, `mode`,
`steps_num`, `version` and `mask_type` are part of the shape). -/
inductive BriaBody where
  | removeBackgroundBody (image : String)
  | blurBody (image : String) (scale : Int)
  | replaceBody (image : String) (prompt : String)
  | expandBody (image : String) (aspect_ratio : String) (prompt : Option String)
  | upscaleBody (image : String) (desired_increase : Int)
  | enhanceBody (image : String) (resolution : String)
  | eraseBody (image : String) (mask : String)
  | genFillBody (image : String) (mask : String) (prompt : String)
  | generateBody (prompt : String) (images : Option String)
deriving DecidableEq, Repr

/-- The JSON keys of each request body, in source order (`sync: true`
always present; optional keys only when sent). -/
def bodyKeys : BriaBody → List String
  | .removeBackgroundBody _ => ["image", "sync"]
  | .blurBody _ _ => ["image", "scale", "sync"]
  | .replaceBody _ _ => ["image", "prompt", "mode", "sync"]
  | .expandBody _ _ p =>
      ["image", "aspect_ratio", "sync"] ++ (match p with | some _ => ["prompt"] | none => [])
  | .upscaleBody _ _ => ["image", "desired_increase", "sync"]
  | .enhanceBody _ _ => ["image", "resolution", "steps_num", "sync"]
  | .eraseBody _ _ => ["image", "mask", "sync"]
  | .genFillBody _ _ _ => ["image", "mask", "prompt", "sync", "version", "mask_type"]
  | .generateBody _ img =>
      ["sync", "aspect_ratio", "prompt"] ++ (match img with | some _ => ["images"] | none => [])

/-- A client computation: a finished `GenerateResponse`, or exactly one
HTTP request with the continuation run on its response. -/
inductive ClientComp where
  | done (r : GenerateResponse)
  | fetch (url : String) (body : BriaBody)
      (k : HttpResponse → Except JsError GenerateResponse)

/-- Number of HTTP requests a client computation performs. -/
def requestCount : ClientComp → Nat
  | .done _ => 0
  | .fetch _ _ _ => 1

/-- The URL of the request, when one is made. -/
def fetchUrl : ClientComp → Option String
  | .done _ => none
  | .fetch u _ _ => some u

/-- The body of the request, when one is made. -/
def fetchBody : ClientComp → Option BriaBody
  | .done _ => none
  | .fetch _ b _ => some b

/-- The value thrown by the computation on a given response, if any. -/
def thrownValue : ClientComp → HttpResponse → Option JsError
  | .done _, _ => none
  | .fetch _ _ k, resp =>
    match k resp with
    | .ok _ => none
    | .error e => some e

/-- `data.result?.image_url || data.result_url` on a success payload. -/
def okImageUrl (resp : HttpResponse) : String :=
  jsOrStr resp.resultImageUrl resp.resultUrl

/-! ## Bria client functions (bria.ts) -/

/-- `removeBackground` (bria.ts lines 20–54). -/
def removeBackground (image : String) (apiToken : Option String) : ClientComp :=
  if strTruthy apiToken then
    .fetch (BRIA_EDIT_BASE ++ "/remove_background")
      (.removeBackgroundBody (stripDataUrl image))
      (fun resp =>
        if resp.ok then .ok { imageUrl := okImageUrl resp }
        else .error (.error ("Background removal failed: " ++ toString resp.status
          ++ " - " ++ resp.text)))
  else .done { imageUrl := image }

/-- The blur `scale` (bria.ts line 79): `Math.min(5, Math.max(1,
Math.round(intensity / 20)))`, with `Math.round x = ⌊x + 1/2⌋`. -/
def blurScale (intensity : Int) : Int :=
  min 5 (max 1 ⌊(intensity : ℚ) / 20 + 1/2⌋)

/-- `blurBackground` (bria.ts lines 59–95). -/
def blurBackground (image : String) (intensity : Int)
    (apiToken : Option String) : ClientComp :=
  if strTruthy apiToken then
    .fetch (BRIA_EDIT_BASE ++ "/blur_background")
      (.blurBody (stripDataUrl image) (blurScale intensity))
      (fun resp =>
        if resp.ok then .ok { imageUrl := okImageUrl resp }
        else .error (.error ("Background blur failed: " ++ toString resp.status
          ++ " - " ++ resp.text)))
  else .done { imageUrl := image }

/-- `replaceBackground` (bria.ts lines 100–137). -/
def replaceBackground (image : String) (prompt : String)
    (apiToken : Option String) : ClientComp :=
  if strTruthy apiToken then
    .fetch (BRIA_EDIT_BASE ++ "/replace_background")
      (.replaceBody (stripDataUrl image) prompt)
      (fun resp =>
        if resp.ok then .ok { imageUrl := okImageUrl resp }
        else .error (.error ("Background replace failed: " ++ toString resp.status
          ++ " - " ++ resp.text)))
  else .done { imageUrl := image }

/-- The aspect-ratio switch of `expandImage` (bria.ts lines 160–174). -/
def expandAspectRatio (direction : String) : String :=
  if direction = "left" ∨ direction = "right" then "3:2"
  else if direction = "up" ∨ direction = "down" then "2:3"
  else "4:3"

/-- `expandImage` (bria.ts lines 143–215); `amount` is accepted but not
sent (aspect-ratio mode), and the prompt is only added when nonempty
after trimming. -/
def expandImage (image : String) (direction : String) (amount : Int)
    (prompt : Option String) (apiToken : Option String) : ClientComp :=
  if strTruthy apiToken then
    let _ := amount
    .fetch (BRIA_EDIT_BASE ++ "/expand")
      (.expandBody (stripDataUrl image) (expandAspectRatio direction)
        (match prompt with
         | some p => if p ≠ "" ∧ p.trim ≠ "" then some p else none
         | none => none))
      (fun resp =>
        if resp.ok then .ok { imageUrl := okImageUrl resp, seed := resp.resultSeed }
        else .error (.error
          (if jsIncludes resp.text "canvas_size is too big" then
            "Image is too large to expand. Please use a smaller image (max ~5000x5000 pixels)."
          else
            "Image expansion failed: " ++ toString resp.status ++ " - " ++ resp.text)))
  else .done { imageUrl := image }

/-- `upscaleImage` (bria.ts lines 220–256). -/
def upscaleImage (image : String) (factor : Int)
    (apiToken : Option String) : ClientComp :=
  if strTruthy apiToken then
    .fetch (BRIA_EDIT_BASE ++ "/increase_resolution")
      (.upscaleBody (stripDataUrl image) factor)
      (fun resp =>
        if resp.ok then .ok { imageUrl := okImageUrl resp }
        else .error (.error ("Image upscale failed: " ++ toString resp.status
          ++ " - " ++ resp.text)))
  else .done { imageUrl := image }

/-- `enhanceImage` (bria.ts lines 262–299). -/
def enhanceImage (image : String) (resolution : String)
    (apiToken : Option String) : ClientComp :=
  if strTruthy apiToken then
    .fetch (BRIA_EDIT_BASE ++ "/enhance")
      (.enhanceBody (stripDataUrl image) resolution)
      (fun resp =>
        if resp.ok then .ok { imageUrl := okImageUrl resp, seed := resp.resultSeed }
        else .error (.error ("Image enhance failed: " ++ toString resp.status
          ++ " - " ++ resp.text)))
  else .done { imageUrl := image }

/-- `eraseElements` (bria.ts lines 304–341). -/
def eraseElements (image : String) (mask : String)
    (apiToken : Option String) : ClientComp :=
  if strTruthy apiToken then
    .fetch (BRIA_EDIT_BASE ++ "/erase")
      (.eraseBody (stripDataUrl image) (stripDataUrl mask))
      (fun resp =>
        if resp.ok then .ok { imageUrl := okImageUrl resp }
        else .error (.error ("Erase elements failed: " ++ toString resp.status
          ++ " - " ++ resp.text)))
  else .done { imageUrl := image }

/-- `mockGenerateResponse` (bria.ts lines 688–701); `randSeed` is the
`Math.floor(Math.random() * 1000000)` draw. -/
def mockGenerateResponse (params : FIBOParams) (randSeed : Nat) : GenerateResponse :=
  { imageUrl := "https://picsum.photos/seed/" ++ toString randSeed ++ "/1024/1024",
    seed := some (randSeed : Int),
    structuredPrompt := some (paramsToStructuredPrompt params) }

/-- `generateWithGenFill` (bria.ts lines 491–559): the error message is
the parsed JSON message when available, else `API error: <status>`. -/
def generateWithGenFill (image mask prompt : String) : ClientComp :=
  .fetch (BRIA_EDIT_BASE ++ "/gen_fill")
    (.genFillBody (stripDataUrl image) (stripDataUrl mask) prompt)
    (fun resp =>
      if resp.ok then .ok { imageUrl := resp.resultImageUrl }
      else .error (.error
        ((resp.parsedErrMessage).getD ("API error: " ++ toString resp.status))))

/-- `generateStandard` (bria.ts lines 564–626): text-to-image, adding
`images: [rawBase64]` only for a truthy input image. -/
def generateStandard (image : Option String) (prompt : String) : ClientComp :=
  .fetch (BRIA_API_BASE ++ "/image/generate")
    (.generateBody prompt
      (if strTruthy image then some (stripDataUrl (image.getD "")) else none))
    (fun resp =>
      if resp.ok then
        .ok { imageUrl := resp.resultImageUrl, seed := resp.resultSeed,
              structuredPrompt := resp.resultStructuredPrompt }
      else .error (.error
        ((resp.parsedErrMessage).getD ("API error: " ++ toString resp.status))))

/-- `generateImage` (bria.ts lines 462–485): mock without a token, else
`gen_fill` when both image and mask are truthy, else standard
generation. -/
def generateImage (image : String) (mask : Option String) (params : FIBOParams)
    (prompt : Option String) (apiToken : Option String) (randSeed : Nat) : ClientComp :=
  if strTruthy apiToken then
    let textPrompt := buildRichPrompt params prompt
    if image ≠ "" ∧ strTruthy mask then
      generateWithGenFill image (mask.getD "") textPrompt
    else
      generateStandard (some image) textPrompt
  else .done (mockGenerateResponse params randSeed)

/-! ## The POST /api/generate handler (route.ts lines 39–160) -/

/-- The parsed request body (`GenerateRequestBody`); absent fields are
`none`.  `operation` is the operation string the switch compares. -/
structure GenerateRequestBody where
  image : Option String := none
  secondImage : Option String := none
  mask : Option String := none
  params : Option FIBOParams := none
  prompt : Option String := none
  operation : Option String := none
deriving DecidableEq, Repr

/-- The client call the route dispatches to, with the arguments the
route computes (route.ts lines 68–149). -/
inductive ClientCall where
  | removeBackground (image : String)
  | blurBackground (image : String) (intensity : Int)
  | replaceBackground (image : String) (prompt : String)
  | expandImage (image : String) (direction : String) (amount : Int)
      (prompt : Option String)
  | upscaleImage (image : String) (factor : Int)
  | enhanceImage (image : String) (resolution : String)
  | eraseElements (image : String) (mask : String)
  | generateImage (image : String) (mask : Option String) (params : FIBOParams)
      (prompt : String)
deriving DecidableEq, Repr

/-- Run a dispatched client call against the environment token and the
`Math.random` draw. -/
def runCall (c : ClientCall) (apiToken : Option String) (randSeed : Nat) : ClientComp :=
  match c with
  | .removeBackground image => removeBackground image apiToken
  | .blurBackground image intensity => blurBackground image intensity apiToken
  | .replaceBackground image prompt => replaceBackground image prompt apiToken
  | .expandImage image direction amount prompt =>
      expandImage image direction amount prompt apiToken
  | .upscaleImage image factor => upscaleImage image factor apiToken
  | .enhanceImage image resolution => enhanceImage image resolution apiToken
  | .eraseElements image mask => eraseElements image mask apiToken
  | .generateImage image mask params prompt =>
      generateImage image mask params (some prompt) apiToken randSeed

/-- Outcome of the route's validation and dispatch: an early 400
response, or a client call. -/
inductive RouteResult where
  | badRequest (error : String) (needsMask : Bool)
  | call (c : ClientCall)
deriving DecidableEq, Repr

/-- The missing-mask message of the `erase_element` branch. -/
def msgEraseNeedsMask : String :=
  "Please draw on the element you want to erase first!"

/-- The missing-mask message of the inpaint branches. -/
def msgInpaintNeedsMask : String :=
  "Please draw on the area you want to edit first! Use the brush tool to mark the region, then try again."

/-- The operation switch of the POST handler (route.ts lines 68–149),
for a request that passed the image and params checks. -/
def routeSwitch (b : GenerateRequestBody) (img : String) (params : FIBOParams) :
    RouteResult :=
  if b.operation = some "background_remove" then
    .call (.removeBackground img)
  else if b.operation = some "background_blur" then
    .call (.blurBackground img (jsOrI params.blur_intensity 50))
  else if b.operation = some "background_replace" then
    .call (.replaceBackground img
      (jsOrS params.new_background (jsOrS b.prompt "professional studio background")))
  else if b.operation = some "image_expand" then
    .call (.expandImage img (jsOrS params.expand_direction "all")
      (jsOrI params.expand_amount 25) b.prompt)
  else if b.operation = some "image_upscale" then
    .call (.upscaleImage img (jsOrI params.upscale_factor 2))
  else if b.operation = some "hdr_enhance" then
    .call (.enhanceImage img (jsOrS params.hdr_resolution "2MP"))
  else if b.operation = some "erase_element" then
    if strTruthy b.mask then .call (.eraseElements img (b.mask.getD ""))
    else .badRequest msgEraseNeedsMask true
  else if (b.operation = some "inpaint_remove" ∨ b.operation = some "inpaint_replace"
      ∨ b.operation = some "inpaint_add") ∧ strTruthy b.mask = false then
    .badRequest msgInpaintNeedsMask true
  else
    let effectivePrompt :=
      if b.operation = some "inpaint_remove" then
        jsOrS b.prompt "empty, background continues naturally"
      else jsOrS b.prompt (buildPromptFromParams params)
    .call (.generateImage img b.mask params effectivePrompt)

/-- The validation prefix of the POST handler (route.ts lines 44–56)
followed by the operation switch. -/
def route (b : GenerateRequestBody) : RouteResult :=
  if strTruthy b.image = false then .badRequest "Image is required" false
  else
    match b.params with
    | none => .badRequest "FIBO parameters are required" false
    | some params => routeSwitch b (b.image.getD "") params

/-- The JSON response of the POST handler: HTTP status, `error` and
`needsMask` fields of the failure payloads, or the success payload. -/
structure ApiResponse where
  status : Nat
  error : Option String := none
  needsMask : Bool := false
  result : Option GenerateResponse := none
deriving DecidableEq, Repr

/-- Run a client computation against the single HTTP response and wrap
it the way the handler does: success becomes a 200 JSON payload, a
thrown value is caught and becomes a 500 with the error message
(route.ts lines 151–159). -/
def handleOutcome (comp : ClientComp) (resp : HttpResponse) : ApiResponse :=
  match comp with
  | .done r => { status := 200, result := some r }
  | .fetch _ _ k =>
    match k resp with
    | .ok r => { status := 200, result := some r }
    | .error e => { status := 500, error := some (jsErrorMessage e) }

/-- The full POST handler: validation, dispatch, client call, response
wrapping. -/
def POST (b : GenerateRequestBody) (apiToken : Option String) (randSeed : Nat)
    (resp : HttpResponse) : ApiResponse :=
  match route b with
  | .badRequest e nm => { status := 400, error := some e, needsMask := nm }
  | .call c => handleOutcome (runCall c apiToken randSeed) resp

/-- Number of external API requests a POST request triggers. -/
def postRequestCount (b : GenerateRequestBody) (apiToken : Option String)
    (randSeed : Nat) : Nat :=
  match route b with
  | .badRequest _ _ => 0
  | .call c => requestCount (runCall c apiToken randSeed)

/-! ## Concrete states used by the witness theorems -/

/-- A blank 1×1 snapshot. -/
def wImage0 : ImageData := ⟨1, 1, [⟨0, 0, 0, 0⟩]⟩

/-- A painted 1×1 snapshot. -/
def wImage1 : ImageData := ⟨1, 1, [⟨255, 0, 0, 200⟩]⟩

/-- A two-snapshot editor state pointing at the first snapshot. -/
def wState4 : MaskEditorState :=
  { history := [wImage0, wImage1], historyIndex := 0,
    canvas := wImage1, hasMask := true }

/-- A two-snapshot editor state pointing at the last snapshot. -/
def wState5 : MaskEditorState :=
  { history := [wImage0, wImage1], historyIndex := 1,
    canvas := wImage1, hasMask := true }

/-- A non-OK HTTP response. -/
def wResp : HttpResponse := { ok := false, status := 502, text := "bad gateway" }

/-! ## Claim theorems -/

/-- C7 (counterexample): the Quick Actions panel does not offer a
one-click button for each of the seven `QuickAction` operations:
`hdr_enhance` is one of the seven operation identifiers, yet no entry of
`QUICK_ACTIONS` (the rendered buttons) carries it. -/
theorem c7_counterexample :
    "hdr_enhance" ∈ quickActionTypeValues ∧
    "hdr_enhance" ∉ QUICK_ACTIONS.map QuickActionDef.id := by
  decide

/-- C7 (amended): the Quick Actions panel offers a one-click button for
exactly six operations — background removal, blur, replace, expand,
upscale and erase — each button dispatching its operation identifier to
the `onAction` handler; `hdr_enhance` is part of the `QuickAction` type
but has no button. -/
theorem c7_panel_buttons :
    quickActionsDispatchIds =
      ["background_remove", "background_blur", "background_replace",
       "image_expand", "image_upscale", "erase_element"] ∧
    QUICK_ACTIONS.length = 6 ∧
    QUICK_ACTIONS.all (fun a => quickActionTypeValues.contains a.id) = true ∧
    (QUICK_ACTIONS.map QuickActionDef.id).Nodup ∧
    "hdr_enhance" ∉ QUICK_ACTIONS.map QuickActionDef.id := by
  refine ⟨rfl, rfl, rfl, ?_, ?_⟩ <;> decide

/-- C6: whenever a mask has been drawn, the exported mask is binary —
the exported image has the mask's dimensions, and a pixel is pure white
exactly when the painted alpha exceeds 10 and pure black otherwise,
depending only on the alpha channel (not on brush colour or opacity);
with no mask drawn, `onMaskChange` receives `null`. -/
theorem c6_export_mask (mask : ImageData) :
    exportMask false mask = none ∧
    exportMask true mask =
      some { width := mask.width, height := mask.height,
             pixels := mask.pixels.map binarizePixel } ∧
    (∀ j p, mask.pixels.get? j = some p →
      (mask.pixels.map binarizePixel).get? j =
        some (if 10 < p.a then whitePixel else blackPixel)) ∧
    (∀ p q : Pixel, p.a = q.a → binarizePixel p = binarizePixel q) := by
  refine ⟨rfl, rfl, ?_, ?_⟩
  · intro j p hj
    rw [List.get?_map, hj]
    rfl
  · intro p q hpq
    simp [binarizePixel, hpq]

/-- C6 (witness): exporting a one-pixel mask painted with a translucent
red stroke (alpha 30) yields a pure-white pixel, and with `hasMask`
false the export is `null`. -/
theorem c6_export_mask_witness :
    exportMask false ⟨1, 1, [⟨200, 0, 0, 30⟩]⟩ = none ∧
    ([(⟨200, 0, 0, 30⟩ : Pixel)].map binarizePixel).get? 0 = some whitePixel := by
  have h := c6_export_mask ⟨1, 1, [⟨200, 0, 0, 30⟩]⟩
  refine ⟨h.1, ?_⟩
  have h3 := h.2.2.1 0 ⟨200, 0, 0, 30⟩ rfl
  simpa using h3

/-- C9: with no `BRIA_API_TOKEN`, every edit client function performs no
HTTP request and returns the input image as `imageUrl` with no seed,
while `generateImage` returns the randomly-seeded picsum placeholder URL
together with the structured prompt derived from the params. -/
theorem c9_no_token_mock (image mask : String) (maskOpt : Option String)
    (params : FIBOParams) (prompt : Option String) (randSeed : Nat)
    (direction resolution bgPrompt : String) (amount factor intensity : Int) :
    removeBackground image none = .done { imageUrl := image } ∧
    requestCount (removeBackground image none) = 0 ∧
    blurBackground image intensity none = .done { imageUrl := image } ∧
    requestCount (blurBackground image intensity none) = 0 ∧
    replaceBackground image bgPrompt none = .done { imageUrl := image } ∧
    requestCount (replaceBackground image bgPrompt none) = 0 ∧
    expandImage image direction amount prompt none = .done { imageUrl := image } ∧
    requestCount (expandImage image direction amount prompt none) = 0 ∧
    upscaleImage image factor none = .done { imageUrl := image } ∧
    requestCount (upscaleImage image factor none) = 0 ∧
    enhanceImage image resolution none = .done { imageUrl := image } ∧
    requestCount (enhanceImage image resolution none) = 0 ∧
    eraseElements image mask none = .done { imageUrl := image } ∧
    requestCount (eraseElements image mask none) = 0 ∧
    generateImage image maskOpt params prompt none randSeed =
      .done (mockGenerateResponse params randSeed) ∧
    requestCount (generateImage image maskOpt params prompt none randSeed) = 0 ∧
    mockGenerateResponse params randSeed =
      { imageUrl := "https://picsum.photos/seed/" ++ toString randSeed ++ "/1024/1024",
        seed := some (randSeed : Int),
        structuredPrompt := some (paramsToStructuredPrompt params) } :=
  ⟨rfl, rfl, rfl, rfl, rfl, rfl, rfl, rfl, rfl, rfl, rfl, rfl, rfl, rfl, rfl, rfl, rfl⟩

/-- C10: for a `background_blur` request the route passes
`params.blur_intensity || 50` to the client, the scale sent to the blur
endpoint is `Math.round(i / 20)` clamped to `[1, 5]`, and a
`blur_intensity` of `0` (or an absent one) falls back to `50`, which
yields scale `3`. -/
theorem c10_blur_scale (b : GenerateRequestBody) (img : String) (params : FIBOParams)
    (t : String) (randSeed : Nat)
    (himg : b.image = some img) (himgNe : img ≠ "")
    (hparams : b.params = some params)
    (hop : b.operation = some "background_blur") (ht : t ≠ "") :
    route b = .call (.blurBackground img (jsOrI params.blur_intensity 50)) ∧
    fetchBody (runCall (.blurBackground img (jsOrI params.blur_intensity 50))
        (some t) randSeed) =
      some (.blurBody (stripDataUrl img)
        (blurScale (jsOrI params.blur_intensity 50))) ∧
    (∀ i : Int, blurScale i = min 5 (max 1 ⌊(i : ℚ) / 20 + 1/2⌋)) ∧
    (∀ i : Int, 1 ≤ blurScale i ∧ blurScale i ≤ 5) ∧
    jsOrI (some 0) 50 = 50 ∧ jsOrI none 50 = 50 ∧ blurScale 50 = 3 := by
  refine ⟨?_, ?_, fun i => rfl, ?_, rfl, rfl, ?_⟩
  · simp [route, strTruthy, himg, himgNe, hparams, routeSwitch, hop]
  · simp [runCall, blurBackground, strTruthy, ht, fetchBody]
  · intro i
    exact ⟨le_min (by norm_num) (le_max_left 1 _), min_le_left 5 _⟩
  · norm_num [blurScale]

/-- C10 (witness): a request whose params carry `blur_intensity: 0` is
routed to the blur client with the 50 fallback, producing scale 3. -/
theorem c10_blur_scale_witness :
    route { image := some "img", params := some { blur_intensity := some 0 },
            operation := some "background_blur" } =
      .call (.blurBackground "img" (jsOrI (some 0) 50)) ∧
    fetchBody (runCall (.blurBackground "img" (jsOrI (some 0) 50)) (some "tok") 0) =
      some (.blurBody (stripDataUrl "img") (blurScale (jsOrI (some 0) 50))) ∧
    (∀ i : Int, blurScale i = min 5 (max 1 ⌊(i : ℚ) / 20 + 1/2⌋)) ∧
    (∀ i : Int, 1 ≤ blurScale i ∧ blurScale i ≤ 5) ∧
    jsOrI (some 0) 50 = 50 ∧ jsOrI none 50 = 50 ∧ blurScale 50 = 3 :=
  c10_blur_scale
    { image := some "img", params := some { blur_intensity := some 0 },
      operation := some "background_blur" }
    "img" { blur_intensity := some 0 } "tok" 0 rfl (by decide) rfl rfl (by decide)

/-- C4: the undo history is a bounded stack.  After `saveToHistory`
(from any component state, where `historyIndex ≥ -1` and the history
holds at most 50 states), the redo states beyond `historyIndex` are
discarded, the snapshot is appended as the new last element, the length
never exceeds 50 (the oldest state is shifted off exactly when the push
would exceed 50), and `historyIndex` equals `history.length - 1`. -/
theorem c4_history_bounded (s : MaskEditorState)
    (hlen : s.history.length ≤ 50) (hidx : -1 ≤ s.historyIndex) :
    ((saveToHistory s).history.length ≤ 50) ∧
    (saveToHistory s).historyIndex = ((saveToHistory s).history.length : Int) - 1 ∧
    (saveToHistory s).history.getLast? = some s.canvas ∧
    ((s.history.take (s.historyIndex + 1).toNat).length + 1 ≤ 50 →
      (saveToHistory s).history =
        s.history.take (s.historyIndex + 1).toNat ++ [s.canvas]) ∧
    (50 < (s.history.take (s.historyIndex + 1).toNat).length + 1 →
      (saveToHistory s).history =
        (s.history.take (s.historyIndex + 1).toNat).drop 1 ++ [s.canvas]) := by
  have hkept : (s.history.take (s.historyIndex + 1).toNat).length ≤ 50 := by
    calc (s.history.take (s.historyIndex + 1).toNat).length
        ≤ s.history.length := by rw [List.length_take]; omega
      _ ≤ 50 := hlen
  have hpush : (pushedHistory s).length =
      (s.history.take (s.historyIndex + 1).toNat).length + 1 := by
    simp [pushedHistory]
  have hhist : (saveToHistory s).history = boundedHistory s := rfl
  have hii : (saveToHistory s).historyIndex =
      ((boundedHistory s).length : Int) - 1 := rfl
  by_cases hfull : 50 < (pushedHistory s).length
  · have h1 : 1 ≤ (s.history.take (s.historyIndex + 1).toNat).length := by omega
    have hbd : boundedHistory s =
        (s.history.take (s.historyIndex + 1).toNat).drop 1 ++ [s.canvas] := by
      rw [boundedHistory, if_pos hfull, pushedHistory,
        List.drop_append_of_le_length h1]
    have hbdlen : (boundedHistory s).length =
        (s.history.take (s.historyIndex + 1).toNat).length - 1 + 1 := by
      rw [hbd]; simp
    refine ⟨?_, ?_, ?_, ?_, ?_⟩
    · rw [hhist, hbdlen]; omega
    · rw [hii, hhist]
    · rw [hhist, hbd]; exact List.getLast?_concat _
    · intro h; omega
    · intro _; rw [hhist, hbd]
  · have hbd : boundedHistory s = pushedHistory s := by
      rw [boundedHistory, if_neg hfull]
    refine ⟨?_, ?_, ?_, ?_, ?_⟩
    · rw [hhist, hbd]; omega
    · rw [hii, hhist]
    · rw [hhist, hbd, pushedHistory]; exact List.getLast?_concat _
    · intro _; rw [hhist, hbd, pushedHistory]
    · intro h; omega

/-- C4 (witness): saving from a two-state history with the index at the
first state discards the redo state and appends the snapshot. -/
theorem c4_history_bounded_witness :
    ((saveToHistory wState4).history.length ≤ 50) ∧
    (saveToHistory wState4).historyIndex =
      ((saveToHistory wState4).history.length : Int) - 1 ∧
    (saveToHistory wState4).history.getLast? = some wState4.canvas ∧
    ((wState4.history.take (wState4.historyIndex + 1).toNat).length + 1 ≤ 50 →
      (saveToHistory wState4).history =
        wState4.history.take (wState4.historyIndex + 1).toNat ++ [wState4.canvas]) ∧
    (50 < (wState4.history.take (wState4.historyIndex + 1).toNat).length + 1 →
      (saveToHistory wState4).history =
        (wState4.history.take (wState4.historyIndex + 1).toNat).drop 1 ++ [wState4.canvas]) :=
  c4_history_bounded wState4 (by decide) (by decide)

/-- C5: `undo` with `historyIndex > 0` (and the index in bounds)
decrements the index and repaints the canvas with
`history[historyIndex - 1]`; `redo` with `historyIndex <
history.length - 1` increments the index and repaints with
`history[historyIndex + 1]`; `redo` after `undo` restores the original
index and canvas whenever undo is enabled and the canvas is in sync
with `history[historyIndex]`; `undo` with `historyIndex ≤ 0` and `redo`
with `historyIndex ≥ history.length - 1` change nothing. -/
theorem c5_undo_redo (s : MaskEditorState) :
    (s.historyIndex ≤ 0 → undo s = s) ∧
    ((s.history.length : Int) - 1 ≤ s.historyIndex → redo s = s) ∧
    (0 < s.historyIndex → s.historyIndex < (s.history.length : Int) →
      (undo s).historyIndex = s.historyIndex - 1 ∧
      s.history.get? (s.historyIndex - 1).toNat = some (undo s).canvas ∧
      (undo s).history = s.history) ∧
    (-1 ≤ s.historyIndex → s.historyIndex < (s.history.length : Int) - 1 →
      (redo s).historyIndex = s.historyIndex + 1 ∧
      s.history.get? (s.historyIndex + 1).toNat = some (redo s).canvas ∧
      (redo s).history = s.history) ∧
    (0 < s.historyIndex → s.historyIndex < (s.history.length : Int) →
      s.history.get? s.historyIndex.toNat = some s.canvas →
      (redo (undo s)).historyIndex = s.historyIndex ∧
      (redo (undo s)).canvas = s.canvas) := by
  refine ⟨?_, ?_, ?_, ?_, ?_⟩
  · intro h; rw [undo, if_pos h]
  · intro h; rw [redo, if_pos h]
  · intro h0 hlt
    have hns : ¬ s.historyIndex ≤ 0 := by omega
    have hneg : ¬ s.historyIndex - 1 < 0 := by omega
    have hin : (s.historyIndex - 1).toNat < s.history.length := by omega
    rw [undo, if_neg hns, if_neg hneg]
    refine ⟨rfl, ?_, rfl⟩
    rw [List.get?_eq_get hin]
    rfl
  · intro hm1 hlt
    have hns : ¬ (s.history.length : Int) - 1 ≤ s.historyIndex := by omega
    have hin : (s.historyIndex + 1).toNat < s.history.length := by omega
    rw [redo, if_neg hns]
    refine ⟨rfl, ?_, rfl⟩
    simp only [List.get?_eq_get hin]
    rfl
  · intro h0 hlt hsync
    have hns : ¬ s.historyIndex ≤ 0 := by omega
    have hneg : ¬ s.historyIndex - 1 < 0 := by omega
    have hu : undo s =
        { s with canvas := (s.history.get? (s.historyIndex - 1).toNat).getD s.canvas,
                 hasMask := true, historyIndex := s.historyIndex - 1 } := by
      rw [undo, if_neg hns, if_neg hneg]
    have hns2 : ¬ (s.history.length : Int) - 1 ≤ s.historyIndex - 1 := by omega
    rw [hu, redo]
    simp only [if_neg hns2]
    have harith : s.historyIndex - 1 + 1 = s.historyIndex := by omega
    refine ⟨harith, ?_⟩
    simp only [harith, hsync]
    rfl

/-- C5 (witness): on a concrete two-snapshot state with the index at the
last snapshot, redo after undo restores the index and canvas, and redo
alone is a no-op. -/
theorem c5_undo_redo_witness :
    (redo (undo wState5)).historyIndex = wState5.historyIndex ∧
    (redo (undo wState5)).canvas = wState5.canvas ∧
    redo wState5 = wState5 := by
  have h := c5_undo_redo wState5
  have h5 := h.2.2.2.2 (by decide) (by decide) (by decide)
  exact ⟨h5.1, h5.2, h.2.1 (by decide)⟩

/-- C2: with a token present, every dispatched client call performs
exactly one HTTP request; on a non-OK response it throws an `Error`
(never a bare value) without retrying, and the POST handler catches it
and answers 500 with the thrown message as the `error` field — a thrown
non-`Error` value would map to `Failed to generate image`. -/
theorem c2_non_ok_throws (c : ClientCall) (t : String) (randSeed : Nat)
    (resp : HttpResponse) (ht : t ≠ "") (hok : resp.ok = false) :
    requestCount (runCall c (some t) randSeed) = 1 ∧
    (∃ m, thrownValue (runCall c (some t) randSeed) resp = some (.error m) ∧
      ∀ b : GenerateRequestBody, route b = .call c →
        POST b (some t) randSeed resp = { status := 500, error := some m }) ∧
    jsErrorMessage JsError.nonError = "Failed to generate image" := by
  have hst : strTruthy (some t) = true := by simp [strTruthy, ht]
  cases c with
  | removeBackground image =>
    refine ⟨by simp [runCall, removeBackground, hst, requestCount],
      ⟨"Background removal failed: " ++ toString resp.status ++ " - " ++ resp.text,
        ?_, ?_⟩, rfl⟩
    · simp [runCall, removeBackground, hst, thrownValue, hok]
    · intro b hb
      simp [POST, hb, handleOutcome, runCall, removeBackground, hst, hok, jsErrorMessage]
  | blurBackground image intensity =>
    refine ⟨by simp [runCall, blurBackground, hst, requestCount],
      ⟨"Background blur failed: " ++ toString resp.status ++ " - " ++ resp.text,
        ?_, ?_⟩, rfl⟩
    · simp [runCall, blurBackground, hst, thrownValue, hok]
    · intro b hb
      simp [POST, hb, handleOutcome, runCall, blurBackground, hst, hok, jsErrorMessage]
  | replaceBackground image prompt =>
    refine ⟨by simp [runCall, replaceBackground, hst, requestCount],
      ⟨"Background replace failed: " ++ toString resp.status ++ " - " ++ resp.text,
        ?_, ?_⟩, rfl⟩
    · simp [runCall, replaceBackground, hst, thrownValue, hok]
    · intro b hb
      simp [POST, hb, handleOutcome, runCall, replaceBackground, hst, hok, jsErrorMessage]
  | expandImage image direction amount prompt =>
    refine ⟨by simp [runCall, expandImage, hst, requestCount],
      ⟨if jsIncludes resp.text "canvas_size is too big" then
          "Image is too large to expand. Please use a smaller image (max ~5000x5000 pixels)."
        else "Image expansion failed: " ++ toString resp.status ++ " - " ++ resp.text,
        ?_, ?_⟩, rfl⟩
    · simp [runCall, expandImage, hst, thrownValue, hok]
    · intro b hb
      simp [POST, hb, handleOutcome, runCall, expandImage, hst, hok, jsErrorMessage]
  | upscaleImage image factor =>
    refine ⟨by simp [runCall, upscaleImage, hst, requestCount],
      ⟨"Image upscale failed: " ++ toString resp.status ++ " - " ++ resp.text,
        ?_, ?_⟩, rfl⟩
    · simp [runCall, upscaleImage, hst, thrownValue, hok]
    · intro b hb
      simp [POST, hb, handleOutcome, runCall, upscaleImage, hst, hok, jsErrorMessage]
  | enhanceImage image resolution =>
    refine ⟨by simp [runCall, enhanceImage, hst, requestCount],
      ⟨"Image enhance failed: " ++ toString resp.status ++ " - " ++ resp.text,
        ?_, ?_⟩, rfl⟩
    · simp [runCall, enhanceImage, hst, thrownValue, hok]
    · intro b hb
      simp [POST, hb, handleOutcome, runCall, enhanceImage, hst, hok, jsErrorMessage]
  | eraseElements image mask =>
    refine ⟨by simp [runCall, eraseElements, hst, requestCount],
      ⟨"Erase elements failed: " ++ toString resp.status ++ " - " ++ resp.text,
        ?_, ?_⟩, rfl⟩
    · simp [runCall, eraseElements, hst, thrownValue, hok]
    · intro b hb
      simp [POST, hb, handleOutcome, runCall, eraseElements, hst, hok, jsErrorMessage]
  | generateImage image mask params prompt =>
    refine ⟨?_,
      ⟨(resp.parsedErrMessage).getD ("API error: " ++ toString resp.status), ?_, ?_⟩, rfl⟩
    · by_cases hgf : image ≠ "" ∧ strTruthy mask = true
      · simp [runCall, generateImage, generateWithGenFill, hst, hgf, requestCount]
      · simp [runCall, generateImage, generateStandard, hst, hgf, requestCount]
    · by_cases hgf : image ≠ "" ∧ strTruthy mask = true
      · simp [runCall, generateImage, generateWithGenFill, hst, hgf, thrownValue, hok]
      · simp [runCall, generateImage, generateStandard, hst, hgf, thrownValue, hok]
    · intro b hb
      by_cases hgf : image ≠ "" ∧ strTruthy mask = true
      · simp [POST, hb, handleOutcome, runCall, generateImage, generateWithGenFill,
          hst, hgf, hok, jsErrorMessage]
      · simp [POST, hb, handleOutcome, runCall, generateImage, generateStandard,
          hst, hgf, hok, jsErrorMessage]

/-- C2 (witness): a non-OK 502 response to a `removeBackground` call
yields exactly one request and a 500 JSON error. -/
theorem c2_non_ok_throws_witness :
    requestCount (runCall (.removeBackground "img") (some "tok") 0) = 1 ∧
    (∃ m, thrownValue (runCall (.removeBackground "img") (some "tok") 0) wResp =
        some (.error m) ∧
      ∀ b : GenerateRequestBody, route b = .call (.removeBackground "img") →
        POST b (some "tok") 0 wResp = { status := 500, error := some m }) ∧
    jsErrorMessage JsError.nonError = "Failed to generate image" :=
  c2_non_ok_throws (.removeBackground "img") "tok" 0 wResp (by decide) rfl

/-- C3: the handler answers 400 and performs no external API call when
the request lacks an image (`Image is required`), lacks params
(`FIBO parameters are required`), or names a mask-requiring operation
(`erase_element`, `inpaint_remove`, `inpaint_replace`, `inpaint_add`)
without supplying a mask — and only the missing-mask responses carry
`needsMask: true`. -/
theorem c3_validation_400 (b : GenerateRequestBody) (t : Option String)
    (randSeed : Nat) (resp : HttpResponse) :
    (strTruthy b.image = false →
      POST b t randSeed resp = { status := 400, error := some "Image is required" } ∧
      postRequestCount b t randSeed = 0) ∧
    (strTruthy b.image = true → b.params = none →
      POST b t randSeed resp =
        { status := 400, error := some "FIBO parameters are required" } ∧
      postRequestCount b t randSeed = 0) ∧
    (strTruthy b.image = true → b.params ≠ none → strTruthy b.mask = false →
      (b.operation = some "erase_element" →
        POST b t randSeed resp =
          { status := 400, error := some msgEraseNeedsMask, needsMask := true } ∧
        postRequestCount b t randSeed = 0) ∧
      ((b.operation = some "inpaint_remove" ∨ b.operation = some "inpaint_replace" ∨
          b.operation = some "inpaint_add") →
        POST b t randSeed resp =
          { status := 400, error := some msgInpaintNeedsMask, needsMask := true } ∧
        postRequestCount b t randSeed = 0)) := by
  refine ⟨?_, ?_, ?_⟩
  · intro himg
    have hr : route b = .badRequest "Image is required" false := by
      rw [route, if_pos himg]
    exact ⟨by simp [POST, hr], by simp [postRequestCount, hr]⟩
  · intro himg hparams
    have hr : route b = .badRequest "FIBO parameters are required" false := by
      rw [route, if_neg (by simp [himg]), hparams]
    exact ⟨by simp [POST, hr], by simp [postRequestCount, hr]⟩
  · intro himg hparams hmask
    obtain ⟨params, hp⟩ := Option.ne_none_iff_exists'.mp hparams
    constructor
    · intro hop
      have hr : route b = .badRequest msgEraseNeedsMask true := by
        rw [route, if_neg (by simp [himg]), hp]
        simp [routeSwitch, hop, hmask]
      exact ⟨by simp [POST, hr], by simp [postRequestCount, hr]⟩
    · intro hop
      have hr : route b = .badRequest msgInpaintNeedsMask true := by
        rw [route, if_neg (by simp [himg]), hp]
        rcases hop with hop | hop | hop <;> simp [routeSwitch, hop, hmask]
      exact ⟨by simp [POST, hr], by simp [postRequestCount, hr]⟩

/-- C3 (witness): a request with an image and params but no mask, whose
operation is `erase_element`, gets the 400 `needsMask` response and
triggers no API request. -/
theorem c3_validation_400_witness :
    POST { image := some "img", params := some {}, operation := some "erase_element" }
        (some "tok") 0 wResp =
      { status := 400, error := some msgEraseNeedsMask, needsMask := true } ∧
    postRequestCount
      { image := some "img", params := some {}, operation := some "erase_element" }
      (some "tok") 0 = 0 :=
  ((c3_validation_400
      { image := some "img", params := some {}, operation := some "erase_element" }
      (some "tok") 0 wResp).2.2 (by decide) (by decide) (by decide)).1 rfl

/-- The operation strings the switch handles by name (route.ts lines
69–118): every other value reaches the default branch. -/
def handledOps : List String :=
  ["background_remove", "background_blur", "background_replace", "image_expand",
   "image_upscale", "hdr_enhance", "erase_element",
   "inpaint_remove", "inpaint_replace", "inpaint_add"]

/-- C1 (counterexample): a request with an image and params whose
operation is `inpaint_add` but has no mask does not fall through to
`generateImage` — the switch answers 400 before any call is made. -/
theorem c1_counterexample :
    route { image := some "img", params := some {}, operation := some "inpaint_add" } =
      .badRequest msgInpaintNeedsMask true ∧
    postRequestCount
      { image := some "img", params := some {}, operation := some "inpaint_add" }
      (some "tok") 0 = 0 :=
  ⟨rfl, rfl⟩

/-- C1 (amended): for every request with an image and params, the
operation selects the external call by case analysis —
`background_remove` → `removeBackground`, `background_blur` →
`blurBackground`, `background_replace` → `replaceBackground`,
`image_expand` → `expandImage`, `image_upscale` → `upscaleImage`,
`hdr_enhance` → `enhanceImage`, `erase_element` with a mask →
`eraseElements` — and every other operation value falls through to
`generateImage`, except `inpaint_remove`/`inpaint_replace`/`inpaint_add`
without a mask, which are rejected with 400 before any call;
`generateImage` uses the `gen_fill` endpoint exactly when a mask is
present and the standard `image/generate` endpoint otherwise, and the
branches send pairwise-distinct JSON body shapes. -/
theorem c1_route_dispatch (img : String) (himg : img ≠ "") (params : FIBOParams)
    (mask prompt op : Option String) (t : String) (ht : t ≠ "")
    (randSeed : Nat) (pr maskS direction resolution bp : String)
    (intensity factor amount : Int) :
    route { image := some img, mask := mask, params := some params, prompt := prompt,
            operation := some "background_remove" } =
      .call (.removeBackground img) ∧
    route { image := some img, mask := mask, params := some params, prompt := prompt,
            operation := some "background_blur" } =
      .call (.blurBackground img (jsOrI params.blur_intensity 50)) ∧
    route { image := some img, mask := mask, params := some params, prompt := prompt,
            operation := some "background_replace" } =
      .call (.replaceBackground img
        (jsOrS params.new_background (jsOrS prompt "professional studio background"))) ∧
    route { image := some img, mask := mask, params := some params, prompt := prompt,
            operation := some "image_expand" } =
      .call (.expandImage img (jsOrS params.expand_direction "all")
        (jsOrI params.expand_amount 25) prompt) ∧
    route { image := some img, mask := mask, params := some params, prompt := prompt,
            operation := some "image_upscale" } =
      .call (.upscaleImage img (jsOrI params.upscale_factor 2)) ∧
    route { image := some img, mask := mask, params := some params, prompt := prompt,
            operation := some "hdr_enhance" } =
      .call (.enhanceImage img (jsOrS params.hdr_resolution "2MP")) ∧
    (strTruthy mask = true →
      route { image := some img, mask := mask, params := some params, prompt := prompt,
              operation := some "erase_element" } =
        .call (.eraseElements img (mask.getD ""))) ∧
    ((∀ s ∈ handledOps, op ≠ some s) →
      route { image := some img, mask := mask, params := some params, prompt := prompt,
              operation := op } =
        .call (.generateImage img mask params
          (jsOrS prompt (buildPromptFromParams params)))) ∧
    (strTruthy mask = true →
      route { image := some img, mask := mask, params := some params, prompt := prompt,
              operation := some "inpaint_remove" } =
        .call (.generateImage img mask params
          (jsOrS prompt "empty, background continues naturally")) ∧
      route { image := some img, mask := mask, params := some params, prompt := prompt,
              operation := some "inpaint_replace" } =
        .call (.generateImage img mask params
          (jsOrS prompt (buildPromptFromParams params))) ∧
      route { image := some img, mask := mask, params := some params, prompt := prompt,
              operation := some "inpaint_add" } =
        .call (.generateImage img mask params
          (jsOrS prompt (buildPromptFromParams params)))) ∧
    (strTruthy mask = true →
      fetchUrl (runCall (.generateImage img mask params pr) (some t) randSeed) =
        some (BRIA_EDIT_BASE ++ "/gen_fill")) ∧
    (strTruthy mask = false →
      fetchUrl (runCall (.generateImage img mask params pr) (some t) randSeed) =
        some (BRIA_API_BASE ++ "/image/generate")) ∧
    List.Pairwise (fun a b => a ≠ b)
      [bodyKeys (.removeBackgroundBody ""), bodyKeys (.blurBody "" 1),
       bodyKeys (.replaceBody "" ""), bodyKeys (.expandBody "" "" none),
       bodyKeys (.expandBody "" "" (some "")), bodyKeys (.upscaleBody "" 1),
       bodyKeys (.enhanceBody "" ""), bodyKeys (.eraseBody "" ""),
       bodyKeys (.genFillBody "" "" ""), bodyKeys (.generateBody "" (some ""))] ∧
    fetchBody (runCall (.removeBackground img) (some t) randSeed) =
      some (.removeBackgroundBody (stripDataUrl img)) ∧
    fetchBody (runCall (.blurBackground img intensity) (some t) randSeed) =
      some (.blurBody (stripDataUrl img) (blurScale intensity)) ∧
    fetchBody (runCall (.replaceBackground img bp) (some t) randSeed) =
      some (.replaceBody (stripDataUrl img) bp) ∧
    fetchBody (runCall (.expandImage img direction amount prompt) (some t) randSeed) =
      some (.expandBody (stripDataUrl img) (expandAspectRatio direction)
        (match prompt with
         | some p => if p ≠ "" ∧ p.trim ≠ "" then some p else none
         | none => none)) ∧
    fetchBody (runCall (.upscaleImage img factor) (some t) randSeed) =
      some (.upscaleBody (stripDataUrl img) factor) ∧
    fetchBody (runCall (.enhanceImage img resolution) (some t) randSeed) =
      some (.enhanceBody (stripDataUrl img) resolution) ∧
    fetchBody (runCall (.eraseElements img maskS) (some t) randSeed) =
      some (.eraseBody (stripDataUrl img) (stripDataUrl maskS)) ∧
    (strTruthy mask = true →
      fetchBody (runCall (.generateImage img mask params pr) (some t) randSeed) =
        some (.genFillBody (stripDataUrl img) (stripDataUrl (mask.getD ""))
          (buildRichPrompt params (some pr)))) ∧
    (strTruthy mask = false →
      fetchBody (runCall (.generateImage img mask params pr) (some t) randSeed) =
        some (.generateBody (buildRichPrompt params (some pr))
          (some (stripDataUrl img)))) := by
  have hst : strTruthy (some t) = true := by simp [strTruthy, ht]
  have himgS : strTruthy (some img) = true := by simp [strTruthy, himg]
  refine ⟨?_, ?_, ?_, ?_, ?_, ?_, ?_, ?_, ?_, ?_, ?_, ?_, ?_, ?_, ?_, ?_, ?_, ?_, ?_,
    ?_, ?_⟩
  · simp [route, himgS, routeSwitch]
  · simp [route, himgS, routeSwitch]
  · simp [route, himgS, routeSwitch]
  · simp [route, himgS, routeSwitch]
  · simp [route, himgS, routeSwitch]
  · simp [route, himgS, routeSwitch]
  · intro hm; simp [route, himgS, routeSwitch, hm]
  · intro hop
    have h1 := hop "background_remove" (by decide)
    have h2 := hop "background_blur" (by decide)
    have h3 := hop "background_replace" (by decide)
    have h4 := hop "image_expand" (by decide)
    have h5 := hop "image_upscale" (by decide)
    have h6 := hop "hdr_enhance" (by decide)
    have h7 := hop "erase_element" (by decide)
    have h8 := hop "inpaint_remove" (by decide)
    have h9 := hop "inpaint_replace" (by decide)
    have h10 := hop "inpaint_add" (by decide)
    simp [route, himgS, routeSwitch, h1, h2, h3, h4, h5, h6, h7, h8, h9, h10]
  · intro hm
    refine ⟨?_, ?_, ?_⟩ <;> simp [route, himgS, routeSwitch, hm]
  · intro hm
    simp [runCall, generateImage, generateWithGenFill, hst, himg, hm, fetchUrl]
  · intro hm
    simp [runCall, generateImage, generateStandard, hst, hm, fetchUrl]
  · decide
  · simp [runCall, removeBackground, hst, fetchBody]
  · simp [runCall, blurBackground, hst, fetchBody]
  · simp [runCall, replaceBackground, hst, fetchBody]
  · simp [runCall, expandImage, hst, fetchBody]
  · simp [runCall, upscaleImage, hst, fetchBody]
  · simp [runCall, enhanceImage, hst, fetchBody]
  · simp [runCall, eraseElements, hst, fetchBody]
  · intro hm
    simp [runCall, generateImage, generateWithGenFill, hst, himg, hm, fetchBody]
  · intro hm
    simp [runCall, generateImage, generateStandard, hst, himgS, hm, fetchBody]

/-- C1 (witness): the amended dispatch instantiated at a concrete
request with an image, params and a mask. -/
theorem c1_route_dispatch_witness :
    route { image := some "img", mask := some "m", params := some {},
            prompt := none, operation := some "background_remove" } =
      .call (.removeBackground "img") ∧
    route { image := some "img", mask := some "m", params := some {},
            prompt := none, operation := some "erase_element" } =
      .call (.eraseElements "img" "m") := by
  have h := c1_route_dispatch "img" (by decide) {} (some "m") none none "tok"
    (by decide) 0 "p" "m2" "left" "2MP" "bg" 1 2 3
  exact ⟨h.1, by simpa using h.2.2.2.2.2.2.1 (by decide)⟩

/-- Bounds for the east/south resize update on one axis: the result
stays nonnegative, keeps the rectangle inside the axis extent, and never
drops below `min w 50`. -/
theorem cropAxisEast (x w W d : ℚ) (hx : 0 ≤ x) (hw : 0 ≤ w) (hxw : x + w ≤ W) :
    0 ≤ min (max 50 (w + d)) (W - x) ∧
    x + min (max 50 (w + d)) (W - x) ≤ W ∧
    min w 50 ≤ min (max 50 (w + d)) (W - x) := by
  have h1 : (50 : ℚ) ≤ max 50 (w + d) := le_max_left _ _
  have h2 : w ≤ W - x := by linarith
  have h3 := min_le_right (max 50 (w + d)) (W - x)
  refine ⟨le_min (by linarith) (by linarith), by linarith, le_min ?_ ?_⟩
  · calc min w 50 ≤ 50 := min_le_right _ _
      _ ≤ max 50 (w + d) := h1
  · calc min w 50 ≤ w := min_le_left _ _
      _ ≤ W - x := h2

/-- Bounds for the west/north resize update on one axis: the clamped
delta keeps the origin nonnegative, the far edge fixed, and the size
never drops below `min w 50`. -/
theorem cropAxisWest (x w W d : ℚ) (hx : 0 ≤ x) (hw : 0 ≤ w) (hxw : x + w ≤ W) :
    0 ≤ x + max (-x) (min d (w - 50)) ∧
    0 ≤ w - max (-x) (min d (w - 50)) ∧
    (x + max (-x) (min d (w - 50))) + (w - max (-x) (min d (w - 50))) ≤ W ∧
    min w 50 ≤ w - max (-x) (min d (w - 50)) := by
  have hc1 : -x ≤ max (-x) (min d (w - 50)) := le_max_left _ _
  have hc2 : min d (w - 50) ≤ w - 50 := min_le_right _ _
  have hcw : max (-x) (min d (w - 50)) ≤ max (-x) (w - 50) :=
    max_le_max le_rfl hc2
  have hle : max (-x) (w - 50) ≤ w := max_le (by linarith) (by linarith)
  refine ⟨by linarith, by linarith, by linarith, ?_⟩
  rcases le_total w 50 with h | h
  · have hmin : min w 50 = w := min_eq_left h
    have h0 : max (-x) (w - 50) ≤ 0 := max_le (by linarith) (by linarith)
    rw [hmin]; linarith
  · have hmin : min w 50 = 50 := min_eq_right h
    have h0 : max (-x) (w - 50) ≤ w - 50 := max_le (by linarith) le_rfl
    rw [hmin]; linarith

/-- A resize from any handle keeps the crop inside the image bounds and
never shrinks the width or height below `min (current) 50`. -/
theorem cropResizeMove_bounds (h : String) (start : CropArea) (dims : Dims)
    (dx dy : ℚ) (hbd : inBounds start dims) :
    inBounds (cropResizeMove h start dims dx dy) dims ∧
    min start.width 50 ≤ (cropResizeMove h start dims dx dy).width ∧
    min start.height 50 ≤ (cropResizeMove h start dims dx dy).height := by
  obtain ⟨hx, hy, hw, hh, hxw, hyh⟩ := hbd
  obtain ⟨hE1, hE2, hE3⟩ := cropAxisEast start.x start.width dims.width dx hx hw hxw
  obtain ⟨hW1, hW2, hW3, hW4⟩ := cropAxisWest start.x start.width dims.width dx hx hw hxw
  obtain ⟨hS1, hS2, hS3⟩ := cropAxisEast start.y start.height dims.height dy hy hh hyh
  obtain ⟨hN1, hN2, hN3, hN4⟩ := cropAxisWest start.y start.height dims.height dy hy hh hyh
  have hminw : min start.width 50 ≤ start.width := min_le_left _ _
  have hminh : min start.height 50 ≤ start.height := min_le_left _ _
  unfold cropResizeMove
  by_cases he : h.contains 'e' = true <;> by_cases hwc : h.contains 'w' = true <;>
    by_cases hsc : h.contains 's' = true <;> by_cases hnc : h.contains 'n' = true <;>
    simp only [he, hwc, hsc, hnc, if_true, if_false, ite_true, ite_false,
      Bool.false_eq_true, eq_self_iff_true] <;>
    refine ⟨⟨?_, ?_, ?_, ?_, ?_, ?_⟩, ?_, ?_⟩ <;>
    first
      | linarith
      | simp only [inBounds] at *; linarith

/-- Dragging the whole crop keeps it inside the image bounds and leaves
its size unchanged. -/
theorem cropDragMove_bounds (start : CropArea) (dims : Dims) (dx dy : ℚ)
    (hbd : inBounds start dims) :
    inBounds (cropDragMove start dims dx dy) dims ∧
    (cropDragMove start dims dx dy).width = start.width ∧
    (cropDragMove start dims dx dy).height = start.height := by
  obtain ⟨hx, hy, hw, hh, hxw, hyh⟩ := hbd
  have h1 : min (start.x + dx) (dims.width - start.width) ≤ dims.width - start.width :=
    min_le_right _ _
  have h2 : (0 : ℚ) ≤ dims.width - start.width := by linarith
  have h3 : max 0 (min (start.x + dx) (dims.width - start.width)) ≤
      dims.width - start.width := max_le h2 h1
  have h4 : min (start.y + dy) (dims.height - start.height) ≤
      dims.height - start.height := min_le_right _ _
  have h5 : (0 : ℚ) ≤ dims.height - start.height := by linarith
  have h6 : max 0 (min (start.y + dy) (dims.height - start.height)) ≤
      dims.height - start.height := max_le h5 h4
  have hx2 : max 0 (min (start.x + dx) (dims.width - start.width)) + start.width ≤
      dims.width := by linarith
  have hy2 : max 0 (min (start.y + dy) (dims.height - start.height)) + start.height ≤
      dims.height := by linarith
  exact ⟨⟨le_max_left 0 _, le_max_left 0 _, hw, hh, hx2, hy2⟩, rfl, rfl⟩

/-- C8: throughout a crop interaction — whether the mouse move is a
no-op, a drag, or a resize from any handle — the crop rectangle stays
inside the image bounds, a resize never shrinks the width or height
below 50 (more precisely below `min (current size) 50`), and
`initializeCrop` establishes in-bounds dimensions of at least 50 for
any image at least 62.5 pixels on each side. -/
theorem c8_crop_invariant (isCropping isDragging : Bool) (handle : Option String)
    (start cur : CropArea) (dims : Dims) (dx dy : ℚ)
    (hstart : inBounds start dims) (hcur : inBounds cur dims) :
    inBounds (handleCropMouseMove isCropping isDragging handle start dims dx dy cur)
      dims ∧
    (∀ h : String,
      inBounds (cropResizeMove h start dims dx dy) dims ∧
      min start.width 50 ≤ (cropResizeMove h start dims dx dy).width ∧
      min start.height 50 ≤ (cropResizeMove h start dims dx dy).height) ∧
    ((125 / 2 : ℚ) ≤ dims.width → (125 / 2 : ℚ) ≤ dims.height →
      inBounds (initializeCrop dims) dims ∧
      50 ≤ (initializeCrop dims).width ∧ 50 ≤ (initializeCrop dims).height) := by
  refine ⟨?_, fun h => cropResizeMove_bounds h start dims dx dy hstart, ?_⟩
  · unfold handleCropMouseMove
    split_ifs with h1 h2 h3
    · exact hcur
    · exact (cropDragMove_bounds start dims dx dy hstart).1
    · exact (cropResizeMove_bounds _ start dims dx dy hstart).1
    · exact hcur
  · intro hWd hHd
    unfold initializeCrop inBounds
    refine ⟨⟨?_, ?_, ?_, ?_, ?_, ?_⟩, ?_, ?_⟩ <;> nlinarith [hWd, hHd]

/-- C8 (witness): the invariant instantiated on a concrete south-east
resize of an in-bounds crop in a 100×100 image. -/
theorem c8_crop_invariant_witness :
    inBounds
      (handleCropMouseMove true false (some "se") ⟨10, 10, 80, 80⟩ ⟨100, 100⟩
        50 (-100) ⟨10, 10, 80, 80⟩) ⟨100, 100⟩ ∧
    min (80 : ℚ) 50 ≤ (cropResizeMove "se" ⟨10, 10, 80, 80⟩ ⟨100, 100⟩ 50 (-100)).width ∧
    inBounds (initializeCrop ⟨100, 100⟩) ⟨100, 100⟩ := by
  have h := c8_crop_invariant true false (some "se") ⟨10, 10, 80, 80⟩ ⟨10, 10, 80, 80⟩
    ⟨100, 100⟩ 50 (-100) (by norm_num [inBounds]) (by norm_num [inBounds])
  exact ⟨h.1, (h.2.1 "se").2.1, (h.2.2 (by norm_num) (by norm_num)).1⟩

end MagicLens
